/-
Verification of the UnidBox order-intake pipeline (intent parsing, product
matching, order assembly, conversation state machine) against its
natural-language specification.

The Python sources under backend/ai and backend/whatsapp are shallowly
embedded below.  Money and scores are modelled as exact rationals (ℚ);
Python's `round(x, 2)` is modelled as round-half-to-even on hundredths.
External collaborators (the LLM completion call, difflib's SequenceMatcher
ratio, clock/uuid order-id generation) are oracle parameters.
-/
import Mathlib

namespace UnidBox

/-! ## Python-flavoured string and number utilities -/

/-- Python whitespace characters (the ones `str.strip`/`str.split` use
for ASCII text). -/
def pyWs (c : Char) : Bool :=
  c = ' ' || c = '\t' || c = '\n' || c = '\x0d' || c = '\x0c' || c = '\x0b'

/-- `True` when the message is empty or whitespace-only, i.e. Python's
`not message or not message.strip()`. -/
def pyBlank (s : String) : Bool :=
  s.data.all pyWs

/-- Lower-case a string (`str.lower`, ASCII part), mapped over the
character data. -/
def pyLower (s : String) : String :=
  ⟨s.data.map Char.toLower⟩

/-- Strip leading and trailing whitespace (`str.strip`). -/
def pyStrip (s : String) : String :=
  ⟨((s.data.dropWhile pyWs).reverse.dropWhile pyWs).reverse⟩

/-- `needle` occurs as a contiguous substring of `hay` (Python's `in`). -/
def hasSub (needle : List Char) : List Char → Bool
  | [] => needle.isEmpty
  | c :: cs => needle.isPrefixOf (c :: cs) || hasSub needle cs

/-- String-level substring test (Python `needle in hay`). -/
def strIn (needle hay : String) : Bool :=
  hasSub needle.data hay.data

/-- Python `str.split()` with no argument on a character list: the
maximal non-whitespace runs, in order (`cur` accumulates the current run
reversed). -/
def pyWordsGo (cur : List Char) : List Char → List String
  | [] => if cur.isEmpty then [] else [⟨cur.reverse⟩]
  | c :: cs =>
    if pyWs c then
      if cur.isEmpty then pyWordsGo [] cs
      else ⟨cur.reverse⟩ :: pyWordsGo [] cs
    else pyWordsGo (c :: cur) cs

/-- Python `str.split()` with no argument: split on whitespace runs,
dropping empty pieces. -/
def pyWords (s : String) : List String :=
  pyWordsGo [] s.data

/-- Numeric value of a decimal digit string (Python `int` on `\d+`). -/
def digitsVal (l : List Char) : Nat :=
  l.foldl (fun n c => 10 * n + (c.toNat - 48)) 0

/-- Leftmost maximal decimal-digit run of a character list, as a number.
This is the semantics of `re.search(r'(\d+)\s*(units?|pcs?|pieces?|sets?)?',
s).group(1)`: the optional unit group never affects group 1, so the result
is the first maximal digit run (or `none` when no digit occurs). -/
def firstNumber : List Char → Option Nat
  | [] => none
  | c :: cs =>
    if c.isDigit then some (digitsVal (c :: cs.takeWhile Char.isDigit))
    else firstNumber cs

/-- Python `int(s)` on stripped text: optional sign followed by digits,
`none` when that fails (`ValueError`). -/
def pyInt (s : String) : Option Int :=
  let t := (pyStrip s).data
  match t with
  | [] => none
  | '-' :: ds => if ds ≠ [] ∧ ds.all Char.isDigit then some (-(digitsVal ds : Int)) else none
  | '+' :: ds => if ds ≠ [] ∧ ds.all Char.isDigit then some (digitsVal ds : Int) else none
  | ds => if ds.all Char.isDigit then some (digitsVal ds : Int) else none

/-! ## Rounding: Python `round(x, 2)` as round-half-to-even on ℚ -/

/-- Round a rational to the nearest integer, ties to the even integer
(Python's `round` on exact values). -/
def rhe (x : ℚ) : ℤ :=
  let f : ℚ := x - (⌊x⌋ : ℚ)
  if f < 1/2 then ⌊x⌋
  else if 1/2 < f then ⌊x⌋ + 1
  else if 2 ∣ ⌊x⌋ then ⌊x⌋ else ⌊x⌋ + 1

/-- Python `round(x, 2)`. -/
def r2 (x : ℚ) : ℚ :=
  (rhe (100 * x) : ℚ) / 100

/-- A rational is a whole number of cents. -/
def CentMult (x : ℚ) : Prop :=
  ∃ k : ℤ, x = (k : ℚ) / 100

/-! ## Data model (backend/ai/intent_parser.py) -/

/-- `IntentType` enumeration. -/
inductive IntentType where
  | order_inquiry
  | price_check
  | stock_check
  | order_status
  | general_question
  | unclear
  deriving DecidableEq, Repr

/-- `ProductIntent` dataclass: one product mention.  `specifications` is a
free-form map never consumed by the embedded operations; it is kept as an
association list for shape fidelity. -/
structure ProductIntent where
  raw_text : String
  product_name : Option String
  quantity : Option Int
  brand : Option String
  category : Option String
  specifications : List (String × String)
  confidence : ℚ
  deriving DecidableEq, Repr

/-- `DeliveryIntent` dataclass. -/
structure DeliveryIntent where
  address : Option String
  date : Option String
  urgency : Option String
  notes : Option String
  deriving DecidableEq, Repr

/-- `ParsedIntent` dataclass. -/
structure ParsedIntent where
  intent_type : IntentType
  products : List ProductIntent
  delivery : Option DeliveryIntent
  customer_name : Option String
  contact_info : Option String
  raw_message : String
  confidence_score : ℚ
  needs_clarification : Bool
  clarification_questions : List String
  summary : String
  deriving DecidableEq, Repr

namespace IntentParser

/-- Product keyword table of `_pattern_match` (insertion order is
significant: the first matching key wins). -/
def productKeywords : List (String × String) :=
  [("ceiling fan", "Ceiling Fans"),
   ("fan", "Ceiling Fans"),
   ("hood", "Range Hoods"),
   ("chimney", "Range Hoods"),
   ("hob", "Hobs & Stoves"),
   ("stove", "Hobs & Stoves"),
   ("tap", "Kitchen Taps"),
   ("sink", "Kitchen Sinks"),
   ("drill", "Power Tools"),
   ("power tool", "Power Tools")]

/-- Brand list of `_pattern_match`. -/
def fallbackBrands : List String :=
  ["acorn", "spin", "fanco", "crestar", "tecno", "ef", "pozzi", "worx",
   "makita", "alaska"]

/-- Singapore localities recognised by `_pattern_match`. -/
def sgAreas : List String :=
  ["hougang", "kovan", "macpherson", "bedok", "tampines", "jurong",
   "woodlands", "yishun"]

/-- Python `str.title()` restricted to single lower-case words, which is
how it is applied to brand keys and area names. -/
def pyTitle (s : String) : String :=
  match s.data with
  | [] => s
  | c :: cs => ⟨c.toUpper :: cs⟩

/-- Intent-type classification of `_pattern_match` (priority order:
price, stock, status, default order_inquiry). -/
def classifyIntent (ml : String) : IntentType :=
  if strIn "price" ml || strIn "cost" ml || strIn "how much" ml then
    .price_check
  else if strIn "stock" ml || strIn "available" ml || strIn "availability" ml then
    .stock_check
  else if strIn "status" ml || strIn "where is" ml || strIn "tracking" ml then
    .order_status
  else .order_inquiry

/-- First brand whose key is a substring of the lowered message. -/
def detectBrand (ml : String) : Option String :=
  (fallbackBrands.find? (fun b => strIn b ml)).map pyTitle

/-- First category whose keyword is a substring of the lowered message. -/
def detectCategory (ml : String) : Option String :=
  (productKeywords.find? (fun kv => strIn kv.1 ml)).map (·.2)

/-- Quantity extraction of `_pattern_match`: the first maximal digit run
of the lowered message. -/
def extractQuantity (ml : String) : Option Nat :=
  firstNumber ml.data

/-- Delivery-urgency detection of `_pattern_match`. -/
def detectUrgency (ml : String) : Option String :=
  if strIn "urgent" ml || strIn "asap" ml || strIn "rush" ml then some "urgent"
  else if strIn "next week" ml || strIn "no rush" ml then some "flexible"
  else none

/-- Address detection of `_pattern_match`: first known locality. -/
def detectAddress (ml : String) : Option String :=
  (sgAreas.find? (fun a => strIn a ml)).map pyTitle

/-- `_generate_clarification_questions`. -/
def clarificationQuestions (products : List ProductIntent)
    (quantity : Option Nat) : List String :=
  (match products with
   | [] => ["Could you please specify which products you're interested in?"]
   | p :: _ =>
     match p.product_name with
     | none => ["Could you provide more details about the specific model you need?"]
     | some _ => []) ++
  (match quantity with
   | none => ["How many units do you need?"]
   | some _ => [])

/-- `_pattern_match` followed by `_parse_response` on its own output
(`_fallback_parse`): the deterministic no-LLM parse of a message. -/
def patternMatch (message : String) : ParsedIntent :=
  let ml := pyLower message
  let brand := detectBrand ml
  let category := detectCategory ml
  let quantity := extractQuantity ml
  let products : List ProductIntent :=
    if category.isSome || brand.isSome then
      [{ raw_text := message
         product_name := none
         quantity := quantity.map (Int.ofNat ·)
         brand := brand
         category := category
         specifications := []
         confidence := 6/10 }]
    else []
  { intent_type := classifyIntent ml
    products := products
    delivery := some { address := detectAddress ml
                       date := none
                       urgency := detectUrgency ml
                       notes := none }
    customer_name := none
    contact_info := none
    raw_message := message
    confidence_score := 1/2
    needs_clarification := products.isEmpty || quantity.isNone
    clarification_questions := clarificationQuestions products quantity
    summary :=
      "Request for " ++ (category.getD "products") ++
      (match brand with | some b => " from " ++ b | none => "") }

/-- `_empty_intent`. -/
def emptyIntent (message : String) : ParsedIntent :=
  { intent_type := .unclear
    products := []
    delivery := none
    customer_name := none
    contact_info := none
    raw_message := message
    confidence_score := 0
    needs_clarification := true
    clarification_questions := ["Could you please describe what you're looking for?"]
    summary := "Empty or unclear message" }

/-- `IntentParser.parse`.  The external LLM call is abstracted by its
outcome: `some intent` when the completion call and the field-by-field
conversion in `_parse_response` succeed, `none` when the client is absent
or any exception occurs — in which case the code falls back to
`_fallback_parse`.  The `try/except` makes the whole function total. -/
def parse (llmOutcome : Option ParsedIntent) (message : String) : ParsedIntent :=
  if pyBlank message then emptyIntent message
  else
    match llmOutcome with
    | some intent => intent
    | none => patternMatch message

end IntentParser

/-! ## Product matcher (backend/ai/product_matcher.py) -/

/-- A catalog record as consumed by `ProductMatcher` (`item_id`, `name`,
optional `clean_name`, numeric price, `url`, optional `image_path`).  The
string-price fallback parse of `_to_matched_product` (an external data
format detail) is not modelled: `price_numeric` carries the price. -/
structure CatalogProduct where
  item_id : String
  name : String
  clean_name : Option String
  price_numeric : ℚ
  url : String
  image_path : Option String
  deriving DecidableEq, Repr

/-- `MatchedProduct` dataclass.  `match_reason` (a human-readable string
containing float formatting) is not modelled. -/
structure MatchedProduct where
  product_id : String
  name : String
  clean_name : String
  price : ℚ
  original_price : Option ℚ
  brand : Option String
  category : Option String
  url : String
  image_path : Option String
  match_score : ℚ
  deriving DecidableEq, Repr

/-- `MatchResult` dataclass (`search_time_ms` wall-clock field omitted). -/
structure MatchResult where
  query : String
  /-- the `matches` field (renamed: `matches` is reserved in Lean) -/
  matchList : List MatchedProduct
  best_match : Option MatchedProduct
  total_found : Nat
  deriving DecidableEq, Repr

namespace ProductMatcher

/-- `KNOWN_BRANDS` (key → display name, in insertion order). -/
def knownBrands : List (String × String) :=
  [("acorn", "Acorn"), ("spin", "Spin"), ("fanco", "Fanco"),
   ("crestar", "Crestar"), ("alaska", "Alaska"), ("tecno", "Tecno"),
   ("ef", "EF"), ("ka", "KA"), ("pozzi", "Pozzi"), ("worx", "WORX"),
   ("makita", "Makita")]

/-- `CATEGORY_KEYWORDS` (category → keyword list, in insertion order). -/
def categoryKeywords : List (String × List String) :=
  [("Ceiling Fans", ["ceiling fan", "fan", "dc fan", "wifi fan"]),
   ("Range Hoods", ["hood", "chimney", "range hood", "kitchen hood"]),
   ("Hobs & Stoves", ["hob", "stove", "cooktop", "gas hob", "induction"]),
   ("Kitchen Taps", ["kitchen tap", "sink tap", "faucet"]),
   ("Basin Taps", ["basin tap", "bathroom tap", "basin mixer"]),
   ("Power Tools", ["drill", "power tool", "grinder", "saw", "washer", "blower"]),
   ("Kitchen Sinks", ["sink", "kitchen sink"]),
   ("Bathroom Fixtures", ["bathroom", "shower", "toilet"]),
   ("Water Heaters", ["water heater", "heater"])]

/-- `CATEGORY_KEYWORDS.get(category, [])`. -/
def keywordsFor (category : String) : List String :=
  ((categoryKeywords.find? (fun kv => kv.1 = category)).map (·.2)).getD []

/-- The word-overlap term of `_score_product`: word sets of query and
clean name, `len(common) / max(len(query_words), 1)`. -/
def wordScore (query cleanName : String) : ℚ :=
  let qw := (pyWords query).dedup
  let nw := (pyWords cleanName).dedup
  let common := qw.filter (fun w => nw.contains w)
  (common.length : ℚ) / max (qw.length : ℚ) 1

/-- Whether the word-overlap term fires (`if common_words:`). -/
def wordOverlapNonempty (query cleanName : String) : Bool :=
  let qw := (pyWords query).dedup
  let nw := (pyWords cleanName).dedup
  !(qw.filter (fun w => nw.contains w)).isEmpty

/-- Brand-bonus condition of `_score_product`: a brand was supplied and
its lower-cased form is a substring of the lower-cased raw name. -/
def brandCond (brand : Option String) (p : CatalogProduct) : Bool :=
  match brand with
  | some b => strIn (pyLower b) (pyLower p.name)
  | none => false

/-- Category-bonus condition of `_score_product`: a category was supplied
and some keyword of its keyword list occurs in the lower-cased raw name. -/
def categoryCond (category : Option String) (p : CatalogProduct) : Bool :=
  match category with
  | some c => (keywordsFor c).any (fun kw => strIn kw (pyLower p.name))
  | none => false

/-- The pre-cap score of `_score_product`.  `ratio` is difflib's
`SequenceMatcher.ratio`, an external collaborator passed as an oracle. -/
def scorePre (ratio : String → String → ℚ) (p : CatalogProduct)
    (query : String) (brand category : Option String) : ℚ :=
  let productName := pyLower p.name
  let cleanName := pyLower (p.clean_name.getD productName)
  let nameScore := ratio query cleanName
  (if 3/10 < nameScore then nameScore * (1/2) else 0) +
  (if wordOverlapNonempty query cleanName then wordScore query cleanName * (3/10) else 0) +
  (if brandCond brand p then 3/10 else 0) +
  (if categoryCond category p then 2/10 else 0)

/-- `_score_product`: the pre-cap score capped at 1.0. -/
def scoreProduct (ratio : String → String → ℚ) (p : CatalogProduct)
    (query : String) (brand category : Option String) : ℚ :=
  min (scorePre ratio p query brand category) 1

/-- `_to_matched_product` (price taken from `price_numeric`, see
`CatalogProduct`). -/
def toMatchedProduct (p : CatalogProduct) (score : ℚ) : MatchedProduct :=
  let nameLower := pyLower p.name
  { product_id := p.item_id
    name := p.name
    clean_name := p.clean_name.getD p.name
    price := p.price_numeric
    original_price := none
    brand := (knownBrands.find? (fun kv => strIn kv.1 nameLower)).map (·.2)
    category := (categoryKeywords.find? (fun kv =>
      kv.2.any (fun kw => strIn kw nameLower))).map (·.1)
    url := p.url
    image_path := p.image_path
    match_score := score }

/-- Stable insertion step for descending sort by score: `x` is placed
before the first element whose score is ≤ `x`'s, so among equal scores the
earlier-inserted element keeps priority.  Together with `sortDesc` this is
the unique stable descending sort, i.e. CPython's
`list.sort(key=lambda x: x[0], reverse=True)`. -/
def insertDesc (x : ℚ × CatalogProduct) :
    List (ℚ × CatalogProduct) → List (ℚ × CatalogProduct)
  | [] => [x]
  | y :: ys => if y.1 ≤ x.1 then x :: y :: ys else y :: insertDesc x ys

/-- Stable descending sort by score. -/
def sortDesc : List (ℚ × CatalogProduct) → List (ℚ × CatalogProduct)
  | [] => []
  | x :: xs => insertDesc x (sortDesc xs)

/-- Brand auto-detection in `match` when no hint is supplied: first
`KNOWN_BRANDS` key occurring in the lowered query. -/
def matchBrand (queryLower : String) (brand : Option String) : Option String :=
  match brand with
  | some b => some b
  | none => (knownBrands.find? (fun kv => strIn kv.1 queryLower)).map (·.2)

/-- Category auto-detection in `match` when no hint is supplied. -/
def matchCategory (queryLower : String) (category : Option String) : Option String :=
  match category with
  | some c => some c
  | none => (categoryKeywords.find? (fun kv =>
      kv.2.any (fun kw => strIn kw queryLower))).map (·.1)

/-- The scored-and-filtered candidate list of `match`, in catalog order
(`score >= min_score` keeps a record). -/
def scoredList (ratio : String → String → ℚ) (catalog : List CatalogProduct)
    (queryLower : String) (brand category : Option String) (minScore : ℚ) :
    List (ℚ × CatalogProduct) :=
  (catalog.map (fun p => (scoreProduct ratio p queryLower brand category, p))).filter
    (fun sp => minScore ≤ sp.1)

/-- `ProductMatcher.match`. -/
def matchQuery (ratio : String → String → ℚ) (catalog : List CatalogProduct)
    (query : String) (brand category : Option String)
    (maxResults : Nat) (minScore : ℚ) : MatchResult :=
  if catalog.isEmpty then
    { query := query, matchList := [], best_match := none, total_found := 0 }
  else
    let queryLower := pyStrip (pyLower query)
    let b := matchBrand queryLower brand
    let c := matchCategory queryLower category
    let scored := scoredList ratio catalog queryLower b c minScore
    let sorted := sortDesc scored
    let ms := (sorted.take maxResults).map (fun sp => toMatchedProduct sp.2 sp.1)
    { query := query
      matchList := ms
      best_match := ms.head?
      total_found := scored.length }

/-- `get_product_by_id`: first record with matching `item_id`. -/
def getProductById (catalog : List CatalogProduct) (productId : String) :
    Option MatchedProduct :=
  (catalog.find? (fun p => p.item_id = productId)).map
    (fun p => toMatchedProduct p 1)

end ProductMatcher

/-! ## Order extractor (backend/ai/order_extractor.py) -/

/-- `OrderItem` dataclass. -/
structure OrderItem where
  product_id : String
  product_name : String
  quantity : Int
  unit_price : ℚ
  total_price : ℚ
  brand : Option String
  category : Option String
  notes : Option String
  match_confidence : ℚ
  deriving DecidableEq, Repr

/-- `OrderSummary` dataclass. -/
structure OrderSummary where
  subtotal : ℚ
  discount : ℚ
  tax : ℚ
  shipping : ℚ
  total : ℚ
  currency : String
  deriving DecidableEq, Repr

/-- `DeliveryDetails` dataclass. -/
structure DeliveryDetails where
  address : String
  city : String
  postal_code : Option String
  contact_name : Option String
  contact_phone : Option String
  preferred_date : Option String
  preferred_time : Option String
  instructions : Option String
  deriving DecidableEq, Repr

/-- `ExtractedOrder` dataclass. -/
structure ExtractedOrder where
  order_id : String
  items : List OrderItem
  summary : OrderSummary
  delivery : Option DeliveryDetails
  customer_name : Option String
  customer_contact : Option String
  raw_inquiry : String
  confidence_score : ℚ
  needs_confirmation : Bool
  confirmation_notes : List String
  created_at : String
  status : String
  deriving DecidableEq, Repr

namespace OrderExtractor

/-- Constructor configuration: `tax_rate` (default 0.09) and
`free_shipping_threshold` (default 500). -/
structure Config where
  tax_rate : ℚ
  free_shipping_threshold : ℚ
  deriving DecidableEq, Repr

/-- The defaults `OrderExtractor()` uses. -/
def defaultConfig : Config := { tax_rate := 9/100, free_shipping_threshold := 500 }

/-- `DEFAULT_SHIPPING`. -/
def defaultShipping : ℚ := 50

/-- The quantity assembled for a mention: `intent.get('quantity', 1) or 1`
(both a missing/`None` quantity and a zero quantity become 1; any other
integer passes through unchanged). -/
def itemQuantity (q : Option Int) : Int :=
  match q with
  | none => 1
  | some n => if n = 0 then 1 else n

/-- `_find_best_match`.  The outer `Option` is the crash boundary:
`intent.get('brand', '')` / `intent.get('category', '')` return `None`
(not the default) when the mention carries a `None` brand or category, so
`.lower()` raises `AttributeError`; likewise
`product.get('category', '').lower()` raises when a candidate's category
is `None` and the mention's category is non-empty.  The inner `Option` is
the loop's result (`best_match` may stay `None` when no score exceeds 0). -/
def findBestMatch (m : ProductIntent) (products : List MatchedProduct) :
    Option (Option MatchedProduct) :=
  match m.brand, m.category with
  | some bb, some cc =>
    let b := pyLower bb
    let c := pyLower cc
    if c ≠ "" ∧ products.any (fun p => p.category.isNone) then none
    else
      some (products.foldl
        (fun acc p =>
          let score := p.match_score +
            (if b ≠ "" ∧ strIn b (pyLower p.name) then 2/10 else 0) +
            (if c ≠ "" ∧ (p.category.map pyLower = some c) then 1/10 else 0)
          if acc.2 < score then (some p, score) else acc)
        ((none : Option MatchedProduct), (0 : ℚ))).1
  | _, _ => none

/-- The `OrderItem` built for a mention with a resolved candidate. -/
def itemOfMatch (m : ProductIntent) (p : MatchedProduct) : OrderItem :=
  { product_id := p.product_id
    product_name := p.clean_name
    quantity := itemQuantity m.quantity
    unit_price := p.price
    total_price := p.price * itemQuantity m.quantity
    brand := p.brand
    category := p.category
    notes := some m.raw_text
    match_confidence := p.match_score }

/-- The placeholder `OrderItem` for an unresolved mention. -/
def unmatchedItem (m : ProductIntent) : OrderItem :=
  { product_id := "UNMATCHED"
    product_name := m.raw_text
    quantity := itemQuantity m.quantity
    unit_price := 0
    total_price := 0
    brand := m.brand
    category := m.category
    notes := some "Product not found in catalog - requires manual matching"
    match_confidence := 0 }

/-- `_extract_items`: mentions aligned positionally against the matched
list; overflow mentions fall back to `_find_best_match` (which may crash —
`none` result) when any candidate exists, else to the UNMATCHED
placeholder. -/
def extractItemsGo (matched : List MatchedProduct) :
    Nat → List ProductIntent → Option (List OrderItem)
  | _, [] => some []
  | i, m :: ms =>
    let resolved : Option (Option MatchedProduct) :=
      match matched[i]? with
      | some p => some (some p)
      | none => if matched.isEmpty then some none else findBestMatch m matched
    match resolved with
    | none => none
    | some r =>
      let item := match r with
        | some p => itemOfMatch m p
        | none => unmatchedItem m
      (extractItemsGo matched (i + 1) ms).map (fun rest => item :: rest)

def extractItems (pi : ParsedIntent) (matched : List MatchedProduct) :
    Option (List OrderItem) :=
  extractItemsGo matched 0 pi.products

/-- `_calculate_summary`: subtotal from line totals, shipping free above
the threshold, tax on the subtotal, every stored component rounded
independently at the point of computation. -/
def calculateSummary (cfg : Config) (items : List OrderItem) : OrderSummary :=
  let subtotal := (items.map (·.total_price)).sum
  let shipping := if cfg.free_shipping_threshold ≤ subtotal then 0 else defaultShipping
  let tax := subtotal * cfg.tax_rate
  let total := subtotal + tax + shipping
  { subtotal := r2 subtotal
    discount := 0
    tax := r2 tax
    shipping := r2 shipping
    total := r2 total
    currency := "SGD" }

/-- `_extract_delivery`: `None` when the intent has no delivery data or no
(non-empty) address. -/
def extractDelivery (pi : ParsedIntent) : Option DeliveryDetails :=
  match pi.delivery with
  | none => none
  | some d =>
    match d.address with
    | none => none
    | some a =>
      if a = "" then none
      else some
        { address := a
          city := "Singapore"
          postal_code := none
          contact_name := pi.customer_name
          contact_phone := pi.contact_info
          preferred_date := d.date
          preferred_time := none
          instructions := d.notes }

/-- `_calculate_confidence`: 0 for an empty item list, otherwise the
rounded weighted blend of mean line confidence (0.6) and intent
confidence (0.4). -/
def calculateConfidence (pi : ParsedIntent) (items : List OrderItem) : ℚ :=
  if items.isEmpty then 0
  else
    let itemConfidence := (items.map (·.match_confidence)).sum / items.length
    r2 (itemConfidence * (6/10) + pi.confidence_score * (4/10))

/-- `_check_confirmation_needs` (the Boolean flag together with the
accumulated notes). -/
def checkConfirmationNeeds (pi : ParsedIntent) (items : List OrderItem)
    (delivery : Option DeliveryDetails) : Bool × List String :=
  let unmatched := items.filter (fun it => it.product_id = "UNMATCHED")
  let lowConfidence := items.filter
    (fun it => it.match_confidence < 7/10 ∧ it.product_id ≠ "UNMATCHED")
  let missingQty := items.filter (fun it => it.quantity ≤ 0)
  let needs :=
    !unmatched.isEmpty || !lowConfidence.isEmpty || !missingQty.isEmpty ||
    delivery.isNone || pi.needs_clarification
  let notes :=
    (if !unmatched.isEmpty then
      [toString unmatched.length ++
        " product(s) could not be matched - manual selection required"] else []) ++
    (if !lowConfidence.isEmpty then
      [toString lowConfidence.length ++
        " product(s) have low match confidence - please verify"] else []) ++
    (if !missingQty.isEmpty then ["Some items are missing quantities"] else []) ++
    (if delivery.isNone then ["Delivery address required"] else []) ++
    (if pi.needs_clarification then pi.clarification_questions else [])
  (needs, notes)

/-- `OrderExtractor.extract`.  `orderId` and `createdAt` stand for the
uuid/clock-derived values of `_generate_order_id` / `datetime.utcnow`.
`none` models the `AttributeError` crash reachable through
`_find_best_match` (see `findBestMatch`). -/
def extract (cfg : Config) (orderId createdAt : String) (pi : ParsedIntent)
    (matched : List MatchedProduct) (rawMessage : String) :
    Option ExtractedOrder :=
  (extractItems pi matched).map (fun items =>
    let summary := calculateSummary cfg items
    let delivery := extractDelivery pi
    let confidence := calculateConfidence pi items
    let check := checkConfirmationNeeds pi items delivery
    { order_id := orderId
      items := items
      summary := summary
      delivery := delivery
      customer_name := pi.customer_name
      customer_contact := pi.contact_info
      raw_inquiry := rawMessage
      confidence_score := confidence
      needs_confirmation := check.1
      confirmation_notes := check.2
      created_at := createdAt
      status := "draft" })

/-- `apply_discount` restricted to the summary it rewrites: discount from
the stored subtotal, tax on the discounted subtotal, total recomputed;
subtotal and shipping untouched. -/
def applyDiscountSummary (cfg : Config) (discountPercent : ℚ)
    (s : OrderSummary) : OrderSummary :=
  let discountAmount := s.subtotal * (discountPercent / 100)
  { subtotal := s.subtotal
    discount := r2 discountAmount
    tax := r2 ((s.subtotal - discountAmount) * cfg.tax_rate)
    shipping := s.shipping
    total := r2 (s.subtotal - discountAmount +
      (s.subtotal - discountAmount) * cfg.tax_rate + s.shipping)
    currency := s.currency }

/-- `apply_discount` on a whole order. -/
def applyDiscount (cfg : Config) (order : ExtractedOrder)
    (discountPercent : ℚ) : ExtractedOrder :=
  { order with summary := applyDiscountSummary cfg discountPercent order.summary }

/-- `confirm_order`. -/
def confirmOrder (order : ExtractedOrder) : ExtractedOrder :=
  { order with status := "confirmed", needs_confirmation := false }

/-- The summaries an order's `summary` field can hold: the one
`_calculate_summary` computed at extraction time, rewritten by any
sequence of `apply_discount` calls. -/
inductive SummaryReach (cfg : Config) (items : List OrderItem) :
    OrderSummary → Prop
  | base : SummaryReach cfg items (calculateSummary cfg items)
  | disc (pct : ℚ) {s : OrderSummary} :
      SummaryReach cfg items s →
      SummaryReach cfg items (applyDiscountSummary cfg pct s)

end OrderExtractor

/-! ## Conversation engine (backend/whatsapp/message_handler.py) -/

/-- `ConversationState` enumeration. -/
inductive ConvState where
  | idle
  | awaitingInquiry
  | processing
  | awaitingProductSelection
  | awaitingQuantity
  | awaitingConfirmation
  | awaitingDeliveryInfo
  | orderConfirmed
  | completed
  deriving DecidableEq, Repr

/-- A pending line: a selected product with a yet-unset quantity. -/
abbrev PendingItem := MatchedProduct × Option Int

/-- `ConversationContext` dataclass.  The stored `parsed_intent`,
`matched_products` and `extracted_order` dictionaries round-trip the
corresponding dataclasses field-by-field (`to_dict`), so they are modelled
by the records themselves. -/
structure Context where
  phone_number : String
  state : ConvState
  parsed_intent : Option ParsedIntent
  matched_products : Option (List MatchedProduct)
  extracted_order : Option ExtractedOrder
  pending_items : Option (List PendingItem)
  current_item_index : Nat
  last_message_at : Option String
  created_at : String
  deriving Repr

/-- The outbound action a handler returns. -/
inductive Action where
  | sendText (message : String)
  | sendInteractive (message : String) (buttons : List (String × String))
  | sendProducts (products : List (String × String × ℚ)) (message : String)
  | orderConfirmedAct (orderId : String) (order : ExtractedOrder) (message : String)
  deriving Repr

/-- External collaborators of one message-handling turn: the intent
parser's outcome (LLM-backed or fallback), difflib's ratio, the loaded
catalog, and the uuid/clock values. -/
structure Env where
  parseResult : String → ParsedIntent
  ratio : String → String → ℚ
  catalog : List CatalogProduct
  orderId : String
  now : String

namespace MessageHandler

/-- Python `f"{x:.2f}"` on an exact rational: round-half-even to cents,
print with two decimals. -/
def fmt2 (q : ℚ) : String :=
  let c := rhe (100 * q)
  if c < 0 then
    "-" ++ toString ((-c) / 100) ++ "." ++
      (if (-c) % 100 < 10 then "0" else "") ++ toString ((-c) % 100)
  else
    toString (c / 100) ++ "." ++
      (if c % 100 < 10 then "0" else "") ++ toString (c % 100)

/-- `_build_order_summary` (also `_build_order_summary_from_dict`, which
produces the same text on a present order). -/
def renderSummary (order : ExtractedOrder) : String :=
  let lines := order.items.map (fun item =>
    let priceStr := if 0 < item.unit_price then "$" ++ fmt2 item.unit_price else "TBD"
    let totalStr := if 0 < item.total_price then "$" ++ fmt2 item.total_price else "TBD"
    "• " ++ item.product_name ++ "\n  Qty: " ++ toString item.quantity ++
      " × " ++ priceStr ++ " = " ++ totalStr)
  String.intercalate "\n" lines ++
  "\n\n*Subtotal:* $" ++ fmt2 order.summary.subtotal ++
  (if 0 < order.summary.tax then "\n*GST (9%):* $" ++ fmt2 order.summary.tax else "") ++
  (if 0 < order.summary.shipping then "\n*Shipping:* $" ++ fmt2 order.summary.shipping else "") ++
  "\n*Total:* $" ++ fmt2 order.summary.total ++ " SGD"

/-- The onboarding prompt for unclear intents. -/
def onboardingPrompt : String :=
  "Hi! I'm the UnidBox Order Copilot. I can help you with:\n\n" ++
  "• Placing orders for hardware supplies\n" ++
  "• Checking product prices and availability\n" ++
  "• Tracking your order status\n\n" ++
  "Just tell me what you need! For example:\n" ++
  "_'I need 10 Acorn ceiling fans for a condo project'_"

/-- The order-status prompt: ask for the order number. -/
def orderStatusPrompt : String :=
  "To check your order status, please provide your order number.\n\n" ++
  "Example: _UB-20260131-ABC123_"

/-- The delivery-request prompt emitted on confirm without delivery. -/
def deliveryRequestPrompt : String :=
  "Great! Please provide your delivery details:\n\n" ++
  "📍 Delivery address\n📅 Preferred delivery date\n📱 Contact number\n\n" ++
  "Example: _123 Hougang Ave 1, #01-01, Singapore 530123. " ++
  "Delivery next Monday. Contact: 91234567_"

/-- The final confirmation message carrying the order id. -/
def confirmedMessage (orderId : String) : String :=
  "✅ *Order Confirmed!*\n\n" ++
  "Order ID: *" ++ orderId ++ "*\n\n" ++
  "We'll process your order and send you a Delivery Order (DO) shortly.\n\n" ++
  "Thank you for ordering with UnidBox Hardware! 🙏"

/-- The three-button confirm/modify/cancel prompt. -/
def confirmButtons : List (String × String) :=
  [("confirm_order", "Confirm Order"), ("modify_order", "Modify Order"),
   ("cancel_order", "Cancel")]

/-- `message.replace("product_", "")`: remove every (non-overlapping,
left-to-right) occurrence of `product_`. -/
def removeProductTag : List Char → List Char
  | [] => []
  | c :: cs =>
    if "product_".data.isPrefixOf (c :: cs) then
      removeProductTag ((c :: cs).drop 8)
    else c :: removeProductTag cs
  termination_by l => l.length
  decreasing_by
    · simp only [List.length_drop, List.length_cons]
      omega
    · simp only [List.length_cons]
      omega

/-- `_handle_new_inquiry`.  The second component is `none` exactly when
the turn raises (the `AttributeError` reachable through
`_find_best_match`); the first component is the context as already
mutated at that point. -/
def handleNewInquiry (env : Env) (ctx : Context) (msg : String) :
    Context × Option Action :=
  let parsed := env.parseResult msg
  let ctx2 := { ctx with state := .processing, parsed_intent := some parsed }
  if parsed.intent_type = .unclear then
    ({ ctx2 with state := .awaitingInquiry }, some (.sendText onboardingPrompt))
  else if parsed.intent_type = .order_status then
    (ctx2, some (.sendText orderStatusPrompt))
  else
    let matched := parsed.products.filterMap (fun m =>
      (ProductMatcher.matchQuery env.ratio env.catalog m.raw_text
        m.brand m.category 3 (3/10)).matchList.head?)
    let ctx3 := { ctx2 with matched_products := some matched }
    match OrderExtractor.extract OrderExtractor.defaultConfig env.orderId
        env.now parsed matched msg with
    | none => (ctx3, none)
    | some order =>
      let ctx4 := { ctx3 with extracted_order := some order,
                              state := .awaitingConfirmation }
      if order.needs_confirmation ∧ order.confirmation_notes ≠ [] then
        (ctx4, some (.sendInteractive
          ("📋 *Order Summary*\n\n" ++ renderSummary order ++ "\n\n" ++
            String.intercalate "\n"
              (order.confirmation_notes.map (fun n => "⚠️ " ++ n)))
          confirmButtons))
      else
        (ctx4, some (.sendInteractive
          ("📋 *Order Summary*\n\n" ++ renderSummary order ++
            "\n\nWould you like to proceed with this order?")
          confirmButtons))

/-- `_handle_product_selection`. -/
def handleProductSelection (env : Env) (ctx : Context) (msg : String) :
    Context × Option Action :=
  let fallbackSearch : Context × Option Action :=
    let result := ProductMatcher.matchQuery env.ratio env.catalog msg
      none none 5 (3/10)
    if !result.matchList.isEmpty then
      (ctx, some (.sendProducts
        (result.matchList.map (fun m => (m.product_id, m.clean_name, m.price)))
        ("Found " ++ toString result.total_found ++ " products matching '" ++
          msg ++ "':")))
    else
      (ctx, some (.sendText
        ("Sorry, I couldn't find any products matching '" ++ msg ++ "'. " ++
          "Please try a different search term or browse our catalog.")))
  if msg.startsWith "product_" then
    let productId : String := ⟨removeProductTag msg.data⟩
    match ProductMatcher.getProductById env.catalog productId with
    | some product =>
      ({ ctx with state := .awaitingQuantity,
                  pending_items := some ((ctx.pending_items.getD []) ++
                    [(product, none)]) },
        some (.sendText
          ("Great choice! *" ++ product.name ++ "* - $" ++ fmt2 product.price ++
            "\n\nHow many units do you need?")))
    | none => fallbackSearch
  else fallbackSearch

/-- Set the quantity on the last pending item
(`pending_items[-1]["quantity"] = quantity`). -/
def setLastQuantity (l : List PendingItem) (q : Int) : List PendingItem :=
  match l.reverse with
  | [] => []
  | x :: rest => rest.reverse ++ [(x.1, some q)]

/-- The re-prompt for invalid quantity input. -/
def invalidQuantityPrompt : String :=
  "Please enter a valid quantity (a positive number).\n\nExample: _10_"

/-- `_handle_quantity_input`: non-numeric or non-positive input re-prompts
with no state change (the `ValueError` is caught). -/
def handleQuantityInput (ctx : Context) (msg : String) :
    Context × Option Action :=
  match pyInt msg with
  | some q =>
    if q ≤ 0 then (ctx, some (.sendText invalidQuantityPrompt))
    else
      let pending := ctx.pending_items.getD []
      ({ ctx with
          pending_items := if pending.isEmpty then ctx.pending_items
                           else some (setLastQuantity pending q),
          state := .awaitingConfirmation },
        some (.sendInteractive
          ("Added " ++ toString q ++ " units to your order.\n\n" ++
            "Would you like to add more items or proceed to checkout?")
          [("add_more", "Add More Items"), ("checkout", "Checkout"),
           ("cancel_order", "Cancel")]))
  | none => (ctx, some (.sendText invalidQuantityPrompt))

/-- `_handle_confirmation`.  A confirm synonym with no stored order is the
`AttributeError` crash (`None.get`); the context is unchanged there since
the branch mutates nothing before the read. -/
def handleConfirmation (ctx : Context) (msg : String) :
    Context × Option Action :=
  let ml := pyStrip (pyLower msg)
  if ["confirm_order", "yes", "confirm", "proceed"].contains ml then
    match ctx.extracted_order with
    | none => (ctx, none)
    | some o =>
      if o.delivery.isNone then
        ({ ctx with state := .awaitingDeliveryInfo },
          some (.sendText deliveryRequestPrompt))
      else
        ({ ctx with state := .orderConfirmed },
          some (.orderConfirmedAct o.order_id o (confirmedMessage o.order_id)))
  else if ["modify_order", "modify", "change"].contains ml then
    ({ ctx with state := .awaitingProductSelection },
      some (.sendText
        ("No problem! What would you like to change?\n\n" ++
          "You can:\n• Add more products\n• Change quantities\n" ++
          "• Remove items\n\nJust tell me what you need!")))
  else if ["cancel_order", "cancel", "no"].contains ml then
    ({ ctx with state := .idle, extracted_order := none,
                matched_products := none },
      some (.sendText
        ("Order cancelled. No worries!\n\n" ++
          "Feel free to start a new order anytime. " ++
          "Just tell me what you need! 😊")))
  else if ["add_more"].contains ml then
    ({ ctx with state := .awaitingProductSelection },
      some (.sendText
        ("Sure! What else would you like to add?\n\n" ++
          "Tell me the product name or search for items.")))
  else if ["checkout"].contains ml then
    ({ ctx with state := .awaitingDeliveryInfo },
      some (.sendText
        ("Please provide your delivery details:\n\n" ++
          "📍 Delivery address\n📅 Preferred delivery date\n📱 Contact number")))
  else
    (ctx, some (.sendInteractive "Please select an option:" confirmButtons))

/-- `_handle_delivery_info`.  The raw message is captured as the address
and notes (the stored dict has only address/city/notes keys; only its
truthiness is ever observed, so the remaining `DeliveryDetails` fields are
`none`).  When no order is stored the state mutation still happens before
`_build_order_summary_from_dict(None)` raises. -/
def handleDeliveryInfo (ctx : Context) (msg : String) :
    Context × Option Action :=
  let newDelivery : DeliveryDetails :=
    { address := msg, city := "Singapore", postal_code := none,
      contact_name := none, contact_phone := none,
      preferred_date := none, preferred_time := none,
      instructions := some msg }
  let deliveredOrder (o : ExtractedOrder) : ExtractedOrder :=
    { o with delivery := some newDelivery }
  let ctx1 := match ctx.extracted_order with
    | some o => { ctx with extracted_order := some (deliveredOrder o) }
    | none => ctx
  let ctx2 := { ctx1 with state := .awaitingConfirmation }
  match ctx2.extracted_order with
  | none => (ctx2, none)
  | some o =>
    (ctx2, some (.sendInteractive
      ("📋 *Final Order Summary*\n\n" ++ renderSummary o ++
        "\n\n📍 Delivery: " ++ msg ++ "\n\nReady to confirm?")
      [("confirm_order", "Confirm Order"), ("modify_order", "Modify"),
       ("cancel_order", "Cancel")]))

/-- `handle_message`: stamp the activity time, then dispatch on the
session state (the final `else` of the Python chain routes every other
state — `processing`, `orderConfirmed`, `completed` — to
`_handle_new_inquiry`). -/
def stepFn (env : Env) (ctx : Context) (msg : String) :
    Context × Option Action :=
  let ctx0 := { ctx with last_message_at := some env.now }
  match ctx0.state with
  | .idle => handleNewInquiry env ctx0 msg
  | .awaitingInquiry => handleNewInquiry env ctx0 msg
  | .awaitingProductSelection => handleProductSelection env ctx0 msg
  | .awaitingQuantity => handleQuantityInput ctx0 msg
  | .awaitingConfirmation => handleConfirmation ctx0 msg
  | .awaitingDeliveryInfo => handleDeliveryInfo ctx0 msg
  | _ => handleNewInquiry env ctx0 msg

/-- `_get_or_create_context`: a fresh session starts in IDLE with empty
slots. -/
def initContext (phone createdAt : String) : Context :=
  { phone_number := phone, state := .idle, parsed_intent := none,
    matched_products := none, extracted_order := none, pending_items := none,
    current_item_index := 0, last_message_at := none, created_at := createdAt }

/-- The session states reachable from a fresh session through any message
sequence, under any environments.  A turn that raises still commits the
mutations made before the raise, so crashing turns advance the relation
too. -/
inductive Reachable : Context → Prop where
  | init (phone createdAt : String) : Reachable (initContext phone createdAt)
  | step (env : Env) (msg : String) (c : Context) :
      Reachable c → Reachable (stepFn env c msg).1

end MessageHandler

/-! ## Concrete sample inputs (used by witnesses and counterexamples) -/

/-- A trivial similarity oracle. -/
def ratioZero : String → String → ℚ := fun _ _ => 0

/-- A catalog record whose raw name contains the brand `acorn` and the
category keyword `fan`. -/
def sampleFanProduct : CatalogProduct :=
  { item_id := "P100", name := "Acorn Fan", clean_name := some "Acorn Fan",
    price_numeric := 199, url := "u", image_path := none }

/-- A bare order-inquiry intent with confidence 0.5 and no mentions. -/
def sampleIntent : ParsedIntent :=
  { intent_type := .order_inquiry, products := [], delivery := none,
    customer_name := none, contact_info := none, raw_message := "m",
    confidence_score := 1/2, needs_clarification := false,
    clarification_questions := [], summary := "" }

/-- A mention of one Acorn ceiling fan. -/
def sampleMention : ProductIntent :=
  { raw_text := "fan", product_name := none, quantity := some 1,
    brand := some "Acorn", category := some "Ceiling Fans",
    specifications := [], confidence := 6/10 }

/-- A matched product priced at 10.044 dollars (three decimals, as catalog
prices are not restricted to whole cents). -/
def sampleMatched : MatchedProduct :=
  { product_id := "P100", name := "Acorn Fan", clean_name := "Acorn Fan",
    price := 2511/250, original_price := none, brand := some "Acorn",
    category := some "Ceiling Fans", url := "u", image_path := none,
    match_score := 1 }

/-- An intent carrying the single mention `sampleMention`. -/
def sampleIntentOneFan : ParsedIntent :=
  { sampleIntent with products := [sampleMention] }

/-- A mention whose quantity is the (malformed but representable)
integer −3. -/
def negQtyMention : ProductIntent :=
  { sampleMention with quantity := some (-3) }

/-- An intent carrying the single mention `negQtyMention`. -/
def sampleIntentNegQty : ParsedIntent :=
  { sampleIntent with products := [negQtyMention] }

/-- A concrete environment: no LLM configured (fallback parse), empty
catalog, fixed clock/uuid values. -/
def sampleEnv : Env :=
  { parseResult := IntentParser.parse none, ratio := ratioZero,
    catalog := [], orderId := "UB-20260101-ABCDEF",
    now := "2026-01-01T00:00:00" }

/-- A fresh idle session. -/
def idleCtx : Context :=
  MessageHandler.initContext "6591234567" "2026-01-01T00:00:00"

/-- Concrete delivery details. -/
def sampleDelivery : DeliveryDetails :=
  { address := "Bedok", city := "Singapore", postal_code := none,
    contact_name := none, contact_phone := none, preferred_date := none,
    preferred_time := none, instructions := none }

/-- A draft order with delivery info present. -/
def sampleOrder : ExtractedOrder :=
  { order_id := "UB-20260101-ABCDEF", items := [],
    summary := OrderExtractor.calculateSummary OrderExtractor.defaultConfig [],
    delivery := some sampleDelivery, customer_name := none,
    customer_contact := none, raw_inquiry := "m", confidence_score := 0,
    needs_confirmation := false, confirmation_notes := [],
    created_at := "t", status := "draft" }

/-- The same draft order without delivery info. -/
def noDeliveryOrder : ExtractedOrder :=
  { sampleOrder with delivery := none }

/-- A session awaiting confirmation whose draft order has delivery info. -/
def confirmCtx : Context :=
  { idleCtx with state := .awaitingConfirmation,
                 extracted_order := some sampleOrder }

/-- The single order line extracted for `sampleIntentOneFan` against
`[sampleMatched]`. -/
def sampleExtractItems : List OrderItem :=
  [OrderExtractor.itemOfMatch sampleMention sampleMatched]

/-- The order `extract` produces for `sampleIntentOneFan` against
`[sampleMatched]` (fields written as `extract` computes them). -/
def sampleExtractedOrder : ExtractedOrder :=
  { order_id := "UB-1"
    items := sampleExtractItems
    summary := OrderExtractor.calculateSummary OrderExtractor.defaultConfig
      sampleExtractItems
    delivery := OrderExtractor.extractDelivery sampleIntentOneFan
    customer_name := none
    customer_contact := none
    raw_inquiry := "m"
    confidence_score := OrderExtractor.calculateConfidence sampleIntentOneFan
      sampleExtractItems
    needs_confirmation := (OrderExtractor.checkConfirmationNeeds
      sampleIntentOneFan sampleExtractItems
      (OrderExtractor.extractDelivery sampleIntentOneFan)).1
    confirmation_notes := (OrderExtractor.checkConfirmationNeeds
      sampleIntentOneFan sampleExtractItems
      (OrderExtractor.extractDelivery sampleIntentOneFan)).2
    created_at := "t"
    status := "draft" }

/-! ## Rounding lemmas -/

theorem abs_rhe_sub_le (x : ℚ) : |(rhe x : ℚ) - x| ≤ 1/2 := by
  unfold rhe
  have h0 : (0:ℚ) ≤ x - (⌊x⌋ : ℚ) := by
    have := Int.floor_le x
    linarith
  have h1 : x - (⌊x⌋ : ℚ) < 1 := by
    have := Int.lt_floor_add_one x
    linarith
  by_cases hlt : x - (⌊x⌋ : ℚ) < 1/2
  · simp only [hlt, if_true]
    rw [abs_le]
    constructor <;> linarith
  · simp only [hlt, if_false]
    by_cases hgt : (1:ℚ)/2 < x - (⌊x⌋ : ℚ)
    · simp only [hgt, if_true]
      push_cast
      rw [abs_le]
      constructor <;> linarith
    · simp only [hgt, if_false]
      have heq : x - (⌊x⌋ : ℚ) = 1/2 := le_antisymm (not_lt.mp hgt) (not_lt.mp hlt)
      by_cases hdvd : 2 ∣ ⌊x⌋
      · simp only [hdvd, if_true]
        rw [abs_le]
        constructor <;> linarith
      · simp only [hdvd, if_false]
        push_cast
        rw [abs_le]
        constructor <;> linarith

theorem abs_r2_sub_le (x : ℚ) : |r2 x - x| ≤ 1/200 := by
  unfold r2
  have h := abs_rhe_sub_le (100 * x)
  have h100 : |(rhe (100*x) : ℚ) / 100 - x| = |(rhe (100*x) : ℚ) - 100 * x| / 100 := by
    rw [← abs_of_pos (show (0:ℚ) < 100 by norm_num), ← abs_div]
    congr 1
    field_simp
  rw [h100]
  rw [div_le_iff₀ (show (0:ℚ) < 100 by norm_num)]
  calc |(rhe (100*x) : ℚ) - 100 * x| ≤ 1/2 := h
    _ = 1/200 * 100 := by norm_num

theorem centMult_r2 (x : ℚ) : CentMult (r2 x) :=
  ⟨rhe (100 * x), rfl⟩

theorem centMult_add {a b : ℚ} (ha : CentMult a) (hb : CentMult b) :
    CentMult (a + b) := by
  obtain ⟨j, hj⟩ := ha
  obtain ⟨k, hk⟩ := hb
  exact ⟨j + k, by rw [hj, hk]; push_cast; ring⟩

theorem centMult_neg {a : ℚ} (ha : CentMult a) : CentMult (-a) := by
  obtain ⟨j, hj⟩ := ha
  exact ⟨-j, by rw [hj]; push_cast; ring⟩

theorem centMult_sub {a b : ℚ} (ha : CentMult a) (hb : CentMult b) :
    CentMult (a - b) := by
  have := centMult_add ha (centMult_neg hb)
  simpa [sub_eq_add_neg] using this

/-- Two cent-multiples within 3/200 of each other are within one cent. -/
theorem centMult_close {a b : ℚ} (ha : CentMult a) (hb : CentMult b)
    (h : |a - b| ≤ 3/200) : |a - b| ≤ 1/100 := by
  obtain ⟨j, hj⟩ := ha
  obtain ⟨k, hk⟩ := hb
  have hab : a - b = ((j - k : ℤ) : ℚ) / 100 := by
    rw [hj, hk]; push_cast; ring
  rw [hab] at h ⊢
  rw [abs_div, abs_of_pos (show (0:ℚ) < 100 by norm_num), ← Int.cast_abs] at h ⊢
  rw [div_le_iff₀ (show (0:ℚ) < 100 by norm_num)] at h ⊢
  have habs : (|j - k| : ℤ) ≤ 1 := by
    by_contra hc
    push_neg at hc
    have h2 : (2 : ℤ) ≤ |j - k| := hc
    have h3 : (2 : ℚ) ≤ ((|j - k| : ℤ) : ℚ) := by exact_mod_cast h2
    linarith
  have h4 : ((|j - k| : ℤ) : ℚ) ≤ 1 := by exact_mod_cast habs
  linarith

/-! ## Small auxiliary lemmas -/

theorem r2_eq_self_of_centMult {x : ℚ} (h : CentMult x) : r2 x = x := by
  obtain ⟨k, hk⟩ := h
  subst hk
  have h100 : (100 : ℚ) * ((k : ℚ) / 100) = (k : ℚ) := by field_simp
  unfold r2 rhe
  rw [h100]
  have hfl : ⌊(k : ℚ)⌋ = k := Int.floor_intCast k
  simp only [hfl, Int.cast_id, sub_self]
  norm_num

theorem itemQuantity_ge_one {q : Option Int}
    (h : ∀ n : Int, q = some n → 0 ≤ n) :
    1 ≤ OrderExtractor.itemQuantity q := by
  unfold OrderExtractor.itemQuantity
  cases q with
  | none => norm_num
  | some n =>
    have hn := h n rfl
    by_cases h0 : n = 0
    · simp [h0]
    · simp only [h0, if_false]
      omega

theorem extractItemsGo_quantity {matched : List MatchedProduct}
    {ms : List ProductIntent} {i : Nat} {items : List OrderItem}
    (hq : ∀ m ∈ ms, ∀ n : Int, m.quantity = some n → 0 ≤ n)
    (h : OrderExtractor.extractItemsGo matched i ms = some items) :
    ∀ it ∈ items, 1 ≤ it.quantity := by
  induction ms generalizing i items with
  | nil =>
    simp only [OrderExtractor.extractItemsGo] at h
    cases h
    intro it hit
    cases hit
  | cons m ms ih =>
    simp only [OrderExtractor.extractItemsGo] at h
    set resolved : Option (Option MatchedProduct) :=
      match matched[i]? with
      | some p => some (some p)
      | none => if matched.isEmpty then some none
                else OrderExtractor.findBestMatch m matched with hres
    cases hr : resolved with
    | none => rw [hr] at h; cases h
    | some r =>
      rw [hr] at h
      cases hgo : OrderExtractor.extractItemsGo matched (i + 1) ms with
      | none => rw [hgo] at h; cases h
      | some rest =>
        rw [hgo] at h
        simp only [Option.map_some'] at h
        have hm : ∀ n : Int, m.quantity = some n → 0 ≤ n :=
          hq m (List.mem_cons_self m ms)
        have hrest : ∀ it ∈ rest, 1 ≤ it.quantity :=
          ih (fun x hx => hq x (List.mem_cons_of_mem m hx)) hgo
        intro it hit
        have hinj := Option.some.inj h
        subst hinj
        rcases List.mem_cons.mp hit with hhead | htail
        · subst hhead
          cases r with
          | some p =>
            show 1 ≤ (OrderExtractor.itemOfMatch m p).quantity
            exact itemQuantity_ge_one hm
          | none =>
            show 1 ≤ (OrderExtractor.unmatchedItem m).quantity
            exact itemQuantity_ge_one hm
        · exact hrest it htail

/-! ## Claims -/

/-- **C4.** `_check_confirmation_needs` returns `true` exactly when one of
the five trigger conditions holds: an UNMATCHED line, a non-UNMATCHED line
with match confidence below 0.7, a line with quantity ≤ 0, absent
delivery, or an intent flagged `needs_clarification`.  Toggling any single
condition with the others held false therefore flips the flag. -/
theorem claim_C4 (pi : ParsedIntent) (items : List OrderItem)
    (delivery : Option DeliveryDetails) :
    (OrderExtractor.checkConfirmationNeeds pi items delivery).1 = true ↔
      ((∃ it ∈ items, it.product_id = "UNMATCHED") ∨
       (∃ it ∈ items, it.product_id ≠ "UNMATCHED" ∧ it.match_confidence < 7/10) ∨
       (∃ it ∈ items, it.quantity ≤ 0) ∨
       delivery = none ∨
       pi.needs_clarification = true) := by
  have key : ∀ (l : List OrderItem) (p : OrderItem → Bool),
      ((!(l.filter p).isEmpty) = true ↔ ∃ x ∈ l, p x = true) := by
    intro l p
    simp [List.isEmpty_iff, List.filter_eq_nil_iff]
  have hBB : (∃ x ∈ items, x.match_confidence < 7/10 ∧ x.product_id ≠ "UNMATCHED") ↔
      (∃ it ∈ items, it.product_id ≠ "UNMATCHED" ∧ it.match_confidence < 7/10) := by
    constructor <;> rintro ⟨x, hx, h1, h2⟩ <;> exact ⟨x, hx, h2, h1⟩
  unfold OrderExtractor.checkConfirmationNeeds
  simp only [Bool.or_eq_true, key, Option.isNone_iff_eq_none,
    decide_eq_true_eq]
  rw [hBB]
  constructor
  · rintro ((((h | h) | h) | h) | h)
    exacts [Or.inl h, Or.inr (Or.inl h), Or.inr (Or.inr (Or.inl h)),
      Or.inr (Or.inr (Or.inr (Or.inl h))),
      Or.inr (Or.inr (Or.inr (Or.inr h)))]
  · rintro (h | h | h | h | h)
    exacts [Or.inl (Or.inl (Or.inl (Or.inl h))),
      Or.inl (Or.inl (Or.inl (Or.inr h))), Or.inl (Or.inl (Or.inr h)),
      Or.inl (Or.inr h), Or.inr h]

/-- **C7.** `IntentParser.parse` on an empty or whitespace-only message
returns the empty intent: kind `unclear`, confidence 0,
`needs_clarification` set, and exactly one clarification question.
(Totality — "never raises" — holds by construction: the `try/except`
routes every failure to the deterministic fallback, so `parse` is a total
function into `ParsedIntent`.) -/
theorem claim_C7 (llm : Option ParsedIntent) (msg : String)
    (h : pyBlank msg = true) :
    (IntentParser.parse llm msg).intent_type = .unclear ∧
    (IntentParser.parse llm msg).confidence_score = 0 ∧
    (IntentParser.parse llm msg).needs_clarification = true ∧
    (IntentParser.parse llm msg).clarification_questions.length = 1 := by
  simp [IntentParser.parse, h, IntentParser.emptyIntent]

/-- Witness for C7 at the empty message with no LLM configured. -/
theorem claim_C7_witness :
    pyBlank "" = true ∧
    ((IntentParser.parse none "").intent_type = .unclear ∧
     (IntentParser.parse none "").confidence_score = 0 ∧
     (IntentParser.parse none "").needs_clarification = true ∧
     (IntentParser.parse none "").clarification_questions.length = 1) :=
  ⟨by decide, claim_C7 none "" (by decide)⟩

/-- **C2 (amended).** `_calculate_confidence` equals
`round(0.6·mean(line confidences) + 0.4·intent confidence, 2)` whenever
the order has at least one line; for an order with zero lines it returns
0 outright, ignoring the intent confidence. -/
theorem claim_C2 (pi : ParsedIntent) (items : List OrderItem) :
    (items = [] → OrderExtractor.calculateConfidence pi items = 0) ∧
    (items ≠ [] → OrderExtractor.calculateConfidence pi items =
      r2 ((items.map (·.match_confidence)).sum / items.length * (6/10) +
          pi.confidence_score * (4/10))) := by
  constructor
  · intro h
    subst h
    simp [OrderExtractor.calculateConfidence]
  · intro h
    simp [OrderExtractor.calculateConfidence, List.isEmpty_iff, h]

/-- Witness for C2: both branches at concrete inputs. -/
theorem claim_C2_witness :
    OrderExtractor.calculateConfidence sampleIntent [] = 0 :=
  (claim_C2 sampleIntent []).1 rfl

/-- Counterexample for C2 as stated: for an order with zero lines the
claimed formula gives `round(0.4 × 0.5, 2) = 0.2`, but the code returns
0. -/
theorem claim_C2_counterexample :
    OrderExtractor.calculateConfidence sampleIntent [] = 0 ∧
    r2 (((([] : List OrderItem).map (·.match_confidence)).sum /
        (([] : List OrderItem).length : ℚ)) * (6/10) +
        sampleIntent.confidence_score * (4/10)) = 1/5 ∧
    (0 : ℚ) ≠ 1/5 := by
  refine ⟨by simp [OrderExtractor.calculateConfidence], ?_, by norm_num⟩
  show r2 ((0 : ℚ) / 0 * (6/10) + (1/2) * (4/10)) = 1/5
  norm_num [r2, rhe]

/-- **C10 (amended).** Every order line produced by
`OrderExtractor.extract` has quantity ≥ 1, provided every mention's
quantity is either absent or a non-negative integer (absent and zero
quantities are assembled as 1); hence, under that proviso, the
"quantity ≤ 0" confirmation trigger cannot fire on a fresh order.  A
mention carrying a negative quantity passes through unchanged, which is
what the counterexample exhibits. -/
theorem claim_C10 (cfg : OrderExtractor.Config) (oid t : String)
    (pi : ParsedIntent) (matched : List MatchedProduct) (raw : String)
    (o : ExtractedOrder)
    (hq : ∀ m ∈ pi.products, ∀ n : Int, m.quantity = some n → 0 ≤ n)
    (h : OrderExtractor.extract cfg oid t pi matched raw = some o) :
    ∀ it ∈ o.items, 1 ≤ it.quantity := by
  unfold OrderExtractor.extract at h
  cases hei : OrderExtractor.extractItems pi matched with
  | none => rw [hei] at h; cases h
  | some items =>
    rw [hei] at h
    simp only [Option.map_some'] at h
    have hitems : o.items = items := by rw [← Option.some.inj h]
    rw [hitems]
    exact extractItemsGo_quantity hq
      (by simpa [OrderExtractor.extractItems] using hei)

/-- Witness for C10 on a one-mention intent resolved positionally. -/
theorem claim_C10_witness :
    1 ≤ (OrderExtractor.itemOfMatch sampleMention sampleMatched).quantity := by
  refine claim_C10 OrderExtractor.defaultConfig "UB-1" "t" sampleIntentOneFan
    [sampleMatched] "m" sampleExtractedOrder ?_ rfl
    (OrderExtractor.itemOfMatch sampleMention sampleMatched) ?_
  · intro m hm n hn
    have hm' : m = sampleMention := by
      simpa [sampleIntentOneFan, sampleIntent] using hm
    rw [hm'] at hn
    have hn' : n = 1 := by simpa [sampleMention] using hn.symm
    omega
  · simp [sampleExtractedOrder, sampleExtractItems]

/-- Counterexample for C10 as stated: a mention with quantity −3 is
assembled into a line with quantity −3, violating "every order line has
quantity ≥ 1". -/
theorem claim_C10_counterexample :
    (OrderExtractor.extract OrderExtractor.defaultConfig "UB-1" "t"
      sampleIntentNegQty [] "m").map (fun o => o.items.map (·.quantity)) =
      some [-3] ∧
    ¬ (1 ≤ (-3 : Int)) := by
  exact ⟨rfl, by decide⟩

/-- **C1 (amended).** In `_score_product`, relative to the same record
and query scored without hints, a satisfied brand hint (lower-cased form
a substring of the record's raw name) adds exactly **0.3** to the pre-cap
score, and a satisfied category hint (some keyword of the category's
keyword list occurring in the record's raw name) adds exactly **0.2** —
not 0.2 and 0.1 as claimed. -/
theorem claim_C1 (ratio : String → String → ℚ) (p : CatalogProduct)
    (q : String) (b c : Option String) :
    ProductMatcher.scorePre ratio p q b c =
      ProductMatcher.scorePre ratio p q none none +
      (if ProductMatcher.brandCond b p then 3/10 else 0) +
      (if ProductMatcher.categoryCond c p then 2/10 else 0) := by
  simp only [ProductMatcher.scorePre]
  have hb : ProductMatcher.brandCond none p = false := rfl
  have hc : ProductMatcher.categoryCond none p = false := rfl
  rw [hb, hc]
  simp only [Bool.false_eq_true, if_false]
  ring

/-- Counterexample for C1 as stated: with a trivial similarity oracle and
no word overlap, the satisfied brand hint moves the score by 0.3 (not
0.2) and the satisfied category hint by 0.2 (not 0.1). -/
theorem claim_C1_counterexample :
    ProductMatcher.scorePre ratioZero sampleFanProduct "zzz"
        (some "Acorn") none ≠
      ProductMatcher.scorePre ratioZero sampleFanProduct "zzz" none none +
        2/10 ∧
    ProductMatcher.scorePre ratioZero sampleFanProduct "zzz" none
        (some "Ceiling Fans") ≠
      ProductMatcher.scorePre ratioZero sampleFanProduct "zzz" none none +
        1/10 := by
  have hb : ProductMatcher.brandCond (some "Acorn") sampleFanProduct = true := by
    decide
  have hc : ProductMatcher.categoryCond (some "Ceiling Fans")
      sampleFanProduct = true := by decide
  have hbn : ProductMatcher.brandCond none sampleFanProduct = false := rfl
  have hcn : ProductMatcher.categoryCond none sampleFanProduct = false := rfl
  have hw : ProductMatcher.wordOverlapNonempty "zzz"
      (pyLower ((sampleFanProduct.clean_name).getD
        (pyLower sampleFanProduct.name))) = false := by decide
  constructor
  · simp only [ProductMatcher.scorePre, ratioZero, hb, hbn, hcn, hw,
      Bool.false_eq_true, if_false, if_true]
    norm_num
  · simp only [ProductMatcher.scorePre, ratioZero, hc, hbn, hcn, hw,
      Bool.false_eq_true, if_false, if_true]
    norm_num

theorem summaryReach_inv (cfg : OrderExtractor.Config)
    (items : List OrderItem) (s : OrderSummary)
    (h : OrderExtractor.SummaryReach cfg items s) :
    CentMult s.subtotal ∧ CentMult s.discount ∧ CentMult s.tax ∧
    CentMult s.shipping ∧ CentMult s.total ∧
    |s.total - (s.subtotal - s.discount + s.tax + s.shipping)| ≤ 1/100 := by
  have zeroCent : CentMult 0 := ⟨0, by norm_num⟩
  induction h with
  | base =>
    set S := (items.map (·.total_price)).sum with hS
    set sh : ℚ := if cfg.free_shipping_threshold ≤ S then 0
      else OrderExtractor.defaultShipping with hsh
    have hfields : OrderExtractor.calculateSummary cfg items =
        { subtotal := r2 S, discount := 0, tax := r2 (S * cfg.tax_rate),
          shipping := r2 sh, total := r2 (S + S * cfg.tax_rate + sh),
          currency := "SGD" } := rfl
    rw [hfields]
    have hshCent : CentMult sh := by
      rw [hsh]
      split
      · exact zeroCent
      · exact ⟨5000, by norm_num [OrderExtractor.defaultShipping]⟩
    have hshr : r2 sh = sh := r2_eq_self_of_centMult hshCent
    refine ⟨centMult_r2 _, zeroCent, centMult_r2 _, centMult_r2 _,
      centMult_r2 _, ?_⟩
    show |r2 (S + S * cfg.tax_rate + sh) -
      (r2 S - 0 + r2 (S * cfg.tax_rate) + r2 sh)| ≤ 1/100
    have e1 := abs_r2_sub_le (S + S * cfg.tax_rate + sh)
    have e2 := abs_r2_sub_le S
    have e3 := abs_r2_sub_le (S * cfg.tax_rate)
    have hclose : |r2 (S + S * cfg.tax_rate + sh) -
        (r2 S - 0 + r2 (S * cfg.tax_rate) + r2 sh)| ≤ 3/200 := by
      rw [hshr]
      have hsplit : r2 (S + S * cfg.tax_rate + sh) -
          (r2 S - 0 + r2 (S * cfg.tax_rate) + sh) =
          (r2 (S + S * cfg.tax_rate + sh) - (S + S * cfg.tax_rate + sh)) +
          (-(r2 S - S) + -(r2 (S * cfg.tax_rate) - S * cfg.tax_rate)) := by
        ring
      rw [hsplit]
      have h1 := abs_add (r2 (S + S * cfg.tax_rate + sh) -
        (S + S * cfg.tax_rate + sh))
        (-(r2 S - S) + -(r2 (S * cfg.tax_rate) - S * cfg.tax_rate))
      have h2 := abs_add (-(r2 S - S))
        (-(r2 (S * cfg.tax_rate) - S * cfg.tax_rate))
      rw [abs_neg, abs_neg] at h2
      linarith
    exact centMult_close (centMult_r2 _)
      (centMult_add (centMult_add (centMult_sub (centMult_r2 S) zeroCent)
        (centMult_r2 _)) (by rw [hshr]; exact hshCent)) hclose
  | disc pct hs ih =>
    obtain ⟨hsub, hdis, htax, hship, htot, hbound⟩ := ih
    rename_i sPrev
    set d := sPrev.subtotal * (pct / 100) with hd
    set t2 := (sPrev.subtotal - d) * cfg.tax_rate with ht2
    set X := sPrev.subtotal - d + t2 + sPrev.shipping with hX
    have hfields : OrderExtractor.applyDiscountSummary cfg pct sPrev =
        { subtotal := sPrev.subtotal, discount := r2 d, tax := r2 t2,
          shipping := sPrev.shipping, total := r2 X,
          currency := sPrev.currency } := rfl
    rw [hfields]
    refine ⟨hsub, centMult_r2 _, centMult_r2 _, hship, centMult_r2 _, ?_⟩
    show |r2 X - (sPrev.subtotal - r2 d + r2 t2 + sPrev.shipping)| ≤ 1/100
    have e1 := abs_r2_sub_le X
    have e2 := abs_r2_sub_le d
    have e3 := abs_r2_sub_le t2
    have hclose : |r2 X - (sPrev.subtotal - r2 d + r2 t2 + sPrev.shipping)| ≤
        3/200 := by
      have hsplit : r2 X - (sPrev.subtotal - r2 d + r2 t2 + sPrev.shipping) =
          (r2 X - X) + ((r2 d - d) + -(r2 t2 - t2)) := by
        rw [hX]
        ring
      rw [hsplit]
      have h1 := abs_add (r2 X - X) ((r2 d - d) + -(r2 t2 - t2))
      have h2 := abs_add (r2 d - d) (-(r2 t2 - t2))
      rw [abs_neg] at h2
      linarith
    exact centMult_close (centMult_r2 _)
      (centMult_add (centMult_add (centMult_sub hsub (centMult_r2 _))
        (centMult_r2 _)) hship) hclose

/-- **C3 (amended).** For every order produced by `extract`, the stored
summary is `_calculate_summary` of its items, `apply_discount` keeps the
summary inside the reachable set, and every reachable summary satisfies
the totals identity only up to one cent:
`|total − (round(subtotal,2) − round(discount,2) + round(tax,2) +
round(shipping,2))| ≤ 0.01`.  Exact equality fails (see the
counterexample) because each component is rounded independently while the
total rounds the unrounded sum. -/
theorem claim_C3 :
    (∀ (cfg : OrderExtractor.Config) (oid t : String) (pi : ParsedIntent)
        (matched : List MatchedProduct) (raw : String) (o : ExtractedOrder),
      OrderExtractor.extract cfg oid t pi matched raw = some o →
      OrderExtractor.SummaryReach cfg o.items o.summary) ∧
    (∀ (cfg : OrderExtractor.Config) (o : ExtractedOrder) (pct : ℚ),
      OrderExtractor.SummaryReach cfg o.items o.summary →
      OrderExtractor.SummaryReach cfg
        ((OrderExtractor.applyDiscount cfg o pct).items)
        ((OrderExtractor.applyDiscount cfg o pct).summary)) ∧
    (∀ (cfg : OrderExtractor.Config) (items : List OrderItem)
        (s : OrderSummary),
      OrderExtractor.SummaryReach cfg items s →
      |s.total - (r2 s.subtotal - r2 s.discount + r2 s.tax +
        r2 s.shipping)| ≤ 1/100) := by
  refine ⟨?_, ?_, ?_⟩
  · intro cfg oid t pi matched raw o h
    unfold OrderExtractor.extract at h
    cases hei : OrderExtractor.extractItems pi matched with
    | none => rw [hei] at h; cases h
    | some items =>
      rw [hei] at h
      simp only [Option.map_some'] at h
      rw [← Option.some.inj h]
      exact OrderExtractor.SummaryReach.base
  · intro cfg o pct h
    exact OrderExtractor.SummaryReach.disc pct h
  · intro cfg items s h
    obtain ⟨hsub, hdis, htax, hship, _, hbound⟩ := summaryReach_inv cfg items s h
    rw [r2_eq_self_of_centMult hsub, r2_eq_self_of_centMult hdis,
      r2_eq_self_of_centMult htax, r2_eq_self_of_centMult hship]
    exact hbound

/-- Witness for C3: the freshly computed empty-order summary satisfies the
one-cent bound. -/
theorem claim_C3_witness :
    |(OrderExtractor.calculateSummary OrderExtractor.defaultConfig []).total -
      (r2 (OrderExtractor.calculateSummary OrderExtractor.defaultConfig
          []).subtotal -
        r2 (OrderExtractor.calculateSummary OrderExtractor.defaultConfig
          []).discount +
        r2 (OrderExtractor.calculateSummary OrderExtractor.defaultConfig
          []).tax +
        r2 (OrderExtractor.calculateSummary OrderExtractor.defaultConfig
          []).shipping)| ≤ 1/100 :=
  claim_C3.2.2 OrderExtractor.defaultConfig []
    (OrderExtractor.calculateSummary OrderExtractor.defaultConfig [])
    OrderExtractor.SummaryReach.base

/-- Counterexample for C3 as stated: one line of one unit at price 10.044
(subtotal 10.044, tax 0.90396, shipping 50).  The stored total is
`round(60.94796, 2) = 60.95`, but the rounded components sum to
`10.04 − 0 + 0.90 + 50.00 = 60.94`: off by one cent already with no
`apply_discount` call (the empty sequence). -/
theorem claim_C3_counterexample :
    OrderExtractor.extract OrderExtractor.defaultConfig "UB-1" "t"
      sampleIntentOneFan [sampleMatched] "m" = some sampleExtractedOrder ∧
    sampleExtractedOrder.summary.total = 1219/20 ∧
    r2 sampleExtractedOrder.summary.subtotal -
      r2 sampleExtractedOrder.summary.discount +
      r2 sampleExtractedOrder.summary.tax +
      r2 sampleExtractedOrder.summary.shipping = 3047/50 ∧
    (1219/20 : ℚ) ≠ 3047/50 := by
  refine ⟨rfl, ?_, ?_, by norm_num⟩
  · show (OrderExtractor.calculateSummary OrderExtractor.defaultConfig
      sampleExtractItems).total = 1219/20
    simp only [OrderExtractor.calculateSummary, sampleExtractItems,
      OrderExtractor.itemOfMatch, OrderExtractor.itemQuantity,
      sampleMatched, sampleMention, OrderExtractor.defaultConfig,
      OrderExtractor.defaultShipping]
    norm_num [r2, rhe]
  · show r2 (OrderExtractor.calculateSummary OrderExtractor.defaultConfig
        sampleExtractItems).subtotal -
      r2 (OrderExtractor.calculateSummary OrderExtractor.defaultConfig
        sampleExtractItems).discount +
      r2 (OrderExtractor.calculateSummary OrderExtractor.defaultConfig
        sampleExtractItems).tax +
      r2 (OrderExtractor.calculateSummary OrderExtractor.defaultConfig
        sampleExtractItems).shipping = 3047/50
    simp only [OrderExtractor.calculateSummary, sampleExtractItems,
      OrderExtractor.itemOfMatch, OrderExtractor.itemQuantity,
      sampleMatched, sampleMention, OrderExtractor.defaultConfig,
      OrderExtractor.defaultShipping]
    norm_num [r2, rhe]

theorem firstNumber_of_no_digit {l : List Char}
    (h : ∀ c ∈ l, c.isDigit = false) : firstNumber l = none := by
  induction l with
  | nil => rfl
  | cons c cs ih =>
    unfold firstNumber
    rw [h c (List.mem_cons_self _ _)]
    simp only [Bool.false_eq_true, if_false]
    exact ih (fun x hx => h x (List.mem_cons_of_mem _ hx))

theorem takeWhile_digits {ds post : List Char}
    (hds : ∀ c ∈ ds, c.isDigit = true)
    (hpost : ∀ c ∈ post.take 1, c.isDigit = false) :
    (ds ++ post).takeWhile Char.isDigit = ds := by
  induction ds with
  | nil =>
    cases post with
    | nil => rfl
    | cons p ps =>
      have hp : p.isDigit = false := hpost p (by simp)
      simp [List.takeWhile_cons, hp]
  | cons d ds ih =>
    have hd : d.isDigit = true := hds d (List.mem_cons_self _ _)
    simp only [List.cons_append, List.takeWhile_cons, hd, if_true]
    rw [ih (fun c hc => hds c (List.mem_cons_of_mem _ hc))]

theorem firstNumber_append {pre ds post : List Char}
    (hpre : ∀ c ∈ pre, c.isDigit = false) (hne : ds ≠ [])
    (hds : ∀ c ∈ ds, c.isDigit = true)
    (hpost : ∀ c ∈ post.take 1, c.isDigit = false) :
    firstNumber (pre ++ ds ++ post) = some (digitsVal ds) := by
  induction pre with
  | nil =>
    cases ds with
    | nil => exact absurd rfl hne
    | cons d dtl =>
      have hd : d.isDigit = true := hds d (List.mem_cons_self _ _)
      simp only [List.nil_append, List.cons_append, firstNumber, hd, if_true]
      rw [show dtl.append post = dtl ++ post from rfl,
        takeWhile_digits (fun c hc => hds c (List.mem_cons_of_mem _ hc))
          hpost]
  | cons c pre ih =>
    have hc : c.isDigit = false := hpre c (List.mem_cons_self _ _)
    simp only [List.cons_append, firstNumber, hc, Bool.false_eq_true,
      if_false]
    exact ih (fun x hx => hpre x (List.mem_cons_of_mem _ hx))

/-- **C8.** The fallback extractor's quantity is the integer of the first
maximal digit run of the (lowered) message — in particular, for a message
decomposing as a digit-free prefix, a digit run, and a suffix not starting
with a digit, the quantity is that run's value; and a message containing
no digit yields `none`.  (The optional unit group of the pattern
`(\d+)\s*(units?|pcs?|pieces?|sets?)?` never affects the captured
integer.) -/
theorem claim_C8 :
    (∀ (msg : String) (pre ds post : List Char),
      (pyLower msg).data = pre ++ ds ++ post →
      (∀ c ∈ pre, c.isDigit = false) → ds ≠ [] →
      (∀ c ∈ ds, c.isDigit = true) →
      (∀ c ∈ post.take 1, c.isDigit = false) →
      IntentParser.extractQuantity (pyLower msg) = some (digitsVal ds)) ∧
    (∀ msg : String, (∀ c ∈ (pyLower msg).data, c.isDigit = false) →
      IntentParser.extractQuantity (pyLower msg) = none) := by
  constructor
  · intro msg pre ds post hdec hpre hne hds hpost
    unfold IntentParser.extractQuantity
    rw [hdec]
    exact firstNumber_append hpre hne hds hpost
  · intro msg h
    unfold IntentParser.extractQuantity
    exact firstNumber_of_no_digit h

/-- Witness for C8 at the message `"need 12 pcs"`. -/
theorem claim_C8_witness :
    IntentParser.extractQuantity (pyLower "need 12 pcs") =
      some (digitsVal ['1', '2']) ∧
    digitsVal ['1', '2'] = 12 ∧
    IntentParser.extractQuantity (pyLower "no digits here") = none :=
  ⟨claim_C8.1 "need 12 pcs" "need ".data ['1', '2'] " pcs".data
      (by decide) (by decide) (by decide) (by decide) (by decide),
    by decide,
    claim_C8.2 "no digits here" (by decide)⟩

theorem mem_insertDesc {x y : ℚ × CatalogProduct}
    {l : List (ℚ × CatalogProduct)} :
    y ∈ ProductMatcher.insertDesc x l ↔ y = x ∨ y ∈ l := by
  induction l with
  | nil => simp [ProductMatcher.insertDesc]
  | cons z zs ih =>
    unfold ProductMatcher.insertDesc
    by_cases hcond : z.1 ≤ x.1
    · simp only [hcond, if_true, List.mem_cons]
    · simp only [hcond, if_false, List.mem_cons, ih]
      tauto

theorem mem_sortDesc {y : ℚ × CatalogProduct}
    {l : List (ℚ × CatalogProduct)} :
    y ∈ ProductMatcher.sortDesc l ↔ y ∈ l := by
  induction l with
  | nil => simp [ProductMatcher.sortDesc]
  | cons z zs ih =>
    unfold ProductMatcher.sortDesc
    rw [mem_insertDesc]
    simp [ih]

theorem pairwise_insertDesc {x : ℚ × CatalogProduct}
    {l : List (ℚ × CatalogProduct)}
    (h : l.Pairwise (fun a b => b.1 ≤ a.1)) :
    (ProductMatcher.insertDesc x l).Pairwise (fun a b => b.1 ≤ a.1) := by
  induction l with
  | nil => simp [ProductMatcher.insertDesc]
  | cons z zs ih =>
    rcases List.pairwise_cons.mp h with ⟨hz, hzs⟩
    unfold ProductMatcher.insertDesc
    by_cases hcond : z.1 ≤ x.1
    · simp only [hcond, if_true]
      refine List.pairwise_cons.mpr ⟨?_, h⟩
      intro b hb
      rcases List.mem_cons.mp hb with rfl | hb
      · exact hcond
      · exact le_trans (hz b hb) hcond
    · simp only [hcond, if_false]
      refine List.pairwise_cons.mpr ⟨?_, ih hzs⟩
      intro b hb
      rcases mem_insertDesc.mp hb with rfl | hb
      · exact le_of_lt (lt_of_not_le hcond)
      · exact hz b hb

theorem pairwise_sortDesc (l : List (ℚ × CatalogProduct)) :
    (ProductMatcher.sortDesc l).Pairwise (fun a b => b.1 ≤ a.1) := by
  induction l with
  | nil => simp [ProductMatcher.sortDesc]
  | cons z zs ih => exact pairwise_insertDesc ih

theorem filter_insertDesc (s : ℚ) (x : ℚ × CatalogProduct)
    (l : List (ℚ × CatalogProduct)) :
    (ProductMatcher.insertDesc x l).filter (fun z => decide (z.1 = s)) =
      if x.1 = s then x :: l.filter (fun z => decide (z.1 = s))
      else l.filter (fun z => decide (z.1 = s)) := by
  induction l with
  | nil =>
    unfold ProductMatcher.insertDesc
    by_cases hx : x.1 = s
    · simp [List.filter_cons, hx]
    · simp [List.filter_cons, hx]
  | cons z zs ih =>
    unfold ProductMatcher.insertDesc
    by_cases hcond : z.1 ≤ x.1
    · rw [if_pos hcond]
      by_cases hx : x.1 = s
      · simp [List.filter_cons, hx]
      · simp [List.filter_cons, hx]
    · rw [if_neg hcond]
      have hlt : x.1 < z.1 := lt_of_not_le hcond
      by_cases hx : x.1 = s
      · have hzs : ¬ (z.1 = s) := by
          intro hzs
          rw [hx] at hlt
          rw [hzs] at hlt
          exact lt_irrefl s hlt
        simp [List.filter_cons, hzs, ih, hx]
      · simp [List.filter_cons, ih, hx]

theorem filter_sortDesc (s : ℚ) (l : List (ℚ × CatalogProduct)) :
    (ProductMatcher.sortDesc l).filter (fun z => decide (z.1 = s)) =
      l.filter (fun z => decide (z.1 = s)) := by
  induction l with
  | nil => rfl
  | cons z zs ih =>
    unfold ProductMatcher.sortDesc
    rw [filter_insertDesc]
    by_cases hz : z.1 = s
    · simp [List.filter_cons, hz, ih]
    · simp [List.filter_cons, hz, ih]

theorem wordScore_nonneg (q n : String) : 0 ≤ ProductMatcher.wordScore q n := by
  unfold ProductMatcher.wordScore
  apply div_nonneg (Nat.cast_nonneg _)
  exact le_trans zero_le_one (le_max_right _ 1)

theorem scorePre_nonneg (ratio : String → String → ℚ) (p : CatalogProduct)
    (q : String) (b c : Option String) :
    0 ≤ ProductMatcher.scorePre ratio p q b c := by
  simp only [ProductMatcher.scorePre]
  have hw := wordScore_nonneg q
    (pyLower (p.clean_name.getD (pyLower p.name)))
  split_ifs with h1 h2 h3 h4 <;>
    linarith [hw]

theorem scoreProduct_mem01 (ratio : String → String → ℚ)
    (p : CatalogProduct) (q : String) (b c : Option String) :
    0 ≤ ProductMatcher.scoreProduct ratio p q b c ∧
    ProductMatcher.scoreProduct ratio p q b c ≤ 1 := by
  unfold ProductMatcher.scoreProduct
  exact ⟨le_min (scorePre_nonneg ratio p q b c) zero_le_one,
    min_le_right _ _⟩

theorem scoredList_mem {ratio : String → String → ℚ}
    {catalog : List CatalogProduct} {ql : String} {b c : Option String}
    {minS : ℚ} {sp : ℚ × CatalogProduct}
    (h : sp ∈ ProductMatcher.scoredList ratio catalog ql b c minS) :
    minS ≤ sp.1 ∧ 0 ≤ sp.1 ∧ sp.1 ≤ 1 := by
  unfold ProductMatcher.scoredList at h
  rcases List.mem_filter.mp h with ⟨hmem, hcond⟩
  refine ⟨by simpa using hcond, ?_⟩
  rcases List.mem_map.mp hmem with ⟨p, _, hp⟩
  rw [← hp]
  exact scoreProduct_mem01 ratio p ql b c

/-- **C9.** For every catalog, query, hints, result cap and score floor:
every candidate returned by `ProductMatcher.match` has score within
[0, 1] and at least `min_score`; the returned list is sorted
non-increasingly by score; its length is at most `max_results`; and the
sort is stable — for any score value, the scored-and-filtered candidates
carrying that score appear in the sorted list exactly in catalog order. -/
theorem claim_C9 (ratio : String → String → ℚ)
    (catalog : List CatalogProduct) (query : String) (b c : Option String)
    (maxResults : Nat) (minScore : ℚ) :
    (∀ m ∈ (ProductMatcher.matchQuery ratio catalog query b c maxResults
        minScore).matchList,
      0 ≤ m.match_score ∧ m.match_score ≤ 1 ∧ minScore ≤ m.match_score) ∧
    (ProductMatcher.matchQuery ratio catalog query b c maxResults
      minScore).matchList.Pairwise
        (fun x y => y.match_score ≤ x.match_score) ∧
    (ProductMatcher.matchQuery ratio catalog query b c maxResults
      minScore).matchList.length ≤ maxResults ∧
    (∀ s : ℚ,
      (ProductMatcher.sortDesc (ProductMatcher.scoredList ratio catalog
        (pyStrip (pyLower query))
        (ProductMatcher.matchBrand (pyStrip (pyLower query)) b)
        (ProductMatcher.matchCategory (pyStrip (pyLower query)) c)
        minScore)).filter (fun x => decide (x.1 = s)) =
      (ProductMatcher.scoredList ratio catalog (pyStrip (pyLower query))
        (ProductMatcher.matchBrand (pyStrip (pyLower query)) b)
        (ProductMatcher.matchCategory (pyStrip (pyLower query)) c)
        minScore).filter (fun x => decide (x.1 = s))) := by
  refine ⟨?_, ?_, ?_, fun s => filter_sortDesc s _⟩ <;>
    by_cases hemp : catalog.isEmpty
  · intro m hm
    simp [ProductMatcher.matchQuery, hemp] at hm
  · have hm : (ProductMatcher.matchQuery ratio catalog query b c maxResults
        minScore).matchList =
        ((ProductMatcher.sortDesc (ProductMatcher.scoredList ratio catalog
          (pyStrip (pyLower query))
          (ProductMatcher.matchBrand (pyStrip (pyLower query)) b)
          (ProductMatcher.matchCategory (pyStrip (pyLower query)) c)
          minScore)).take maxResults).map
            (fun sp => ProductMatcher.toMatchedProduct sp.2 sp.1) := by
      simp [ProductMatcher.matchQuery, hemp]
    rw [hm]
    intro m hmem
    rcases List.mem_map.mp hmem with ⟨sp, hsp, hmp⟩
    have hsorted : sp ∈ ProductMatcher.sortDesc _ :=
      (List.take_subset _ _) hsp
    have hscored := mem_sortDesc.mp hsorted
    have hb := scoredList_mem hscored
    have hscore : m.match_score = sp.1 := by rw [← hmp]; rfl
    rw [hscore]
    exact ⟨hb.2.1, hb.2.2, hb.1⟩
  · simp [ProductMatcher.matchQuery, hemp]
  · have hm : (ProductMatcher.matchQuery ratio catalog query b c maxResults
        minScore).matchList =
        ((ProductMatcher.sortDesc (ProductMatcher.scoredList ratio catalog
          (pyStrip (pyLower query))
          (ProductMatcher.matchBrand (pyStrip (pyLower query)) b)
          (ProductMatcher.matchCategory (pyStrip (pyLower query)) c)
          minScore)).take maxResults).map
            (fun sp => ProductMatcher.toMatchedProduct sp.2 sp.1) := by
      simp [ProductMatcher.matchQuery, hemp]
    rw [hm]
    rw [List.pairwise_map]
    exact List.Pairwise.sublist (List.take_sublist _ _) (pairwise_sortDesc _)
  · simp [ProductMatcher.matchQuery, hemp]
  · have hm : (ProductMatcher.matchQuery ratio catalog query b c maxResults
        minScore).matchList =
        ((ProductMatcher.sortDesc (ProductMatcher.scoredList ratio catalog
          (pyStrip (pyLower query))
          (ProductMatcher.matchBrand (pyStrip (pyLower query)) b)
          (ProductMatcher.matchCategory (pyStrip (pyLower query)) c)
          minScore)).take maxResults).map
            (fun sp => ProductMatcher.toMatchedProduct sp.2 sp.1) := by
      simp [ProductMatcher.matchQuery, hemp]
    rw [hm, List.length_map, List.length_take]
    exact min_le_left _ _

/-- Witness for C9: a closed instance on a concrete catalog and query. -/
theorem claim_C9_witness :
    (ProductMatcher.matchQuery ratioZero [sampleFanProduct] "acorn fan"
      none none 5 (3/10)).matchList.length ≤ 5 :=
  (claim_C9 ratioZero [sampleFanProduct] "acorn fan" none none 5
    (3/10)).2.2.1

theorem newInquiry_state_ne (env : Env) (c : Context) (m : String) :
    ((MessageHandler.handleNewInquiry env c m).1).state ≠
      ConvState.orderConfirmed := by
  unfold MessageHandler.handleNewInquiry
  dsimp only
  split
  · simp
  · split
    · simp
    · split
      · simp
      · split <;> simp

theorem productSelection_state_ne (env : Env) (c : Context) (m : String)
    (h : c.state ≠ ConvState.orderConfirmed) :
    ((MessageHandler.handleProductSelection env c m).1).state ≠
      ConvState.orderConfirmed := by
  unfold MessageHandler.handleProductSelection
  dsimp only
  split
  · split
    · simp
    · split
      · simpa using h
      · simpa using h
  · split
    · simpa using h
    · simpa using h

theorem quantityInput_state_ne (c : Context) (m : String)
    (h : c.state ≠ ConvState.orderConfirmed) :
    ((MessageHandler.handleQuantityInput c m).1).state ≠
      ConvState.orderConfirmed := by
  unfold MessageHandler.handleQuantityInput
  dsimp only
  split
  · split
    · simpa using h
    · simp
  · simpa using h

theorem deliveryInfo_state (c : Context) (m : String) :
    ((MessageHandler.handleDeliveryInfo c m).1).state =
      ConvState.awaitingConfirmation := by
  unfold MessageHandler.handleDeliveryInfo
  dsimp only
  split <;> split <;> rfl

theorem confirmation_state (c : Context) (m : String) :
    ((MessageHandler.handleConfirmation c m).1).state =
      ConvState.orderConfirmed →
    ((MessageHandler.handleConfirmation c m).1).state = c.state ∨
    (∃ o, ((MessageHandler.handleConfirmation c m).1).extracted_order =
      some o ∧ o.delivery.isSome = true) := by
  unfold MessageHandler.handleConfirmation
  dsimp only
  split
  · split
    · intro _
      exact Or.inl rfl
    · rename_i o ho
      split
      · intro h
        simp at h
      · rename_i hdel
        intro _
        refine Or.inr ⟨o, by simpa using ho, ?_⟩
        cases hd : o.delivery with
        | none => rw [hd] at hdel; simp at hdel
        | some d => simp [hd]
  · split
    · intro h
      simp at h
    · split
      · intro h
        simp at h
      · split
        · intro h
          simp at h
        · split
          · intro h
            simp at h
          · intro _
            exact Or.inl rfl

/-- **C5 (amended).** For a session in IDLE or AWAITING_INQUIRY whose
message parses to intent kind `order_status`, handling the message emits
the "provide your order number" prompt, but the session's state does
**not** stay unchanged: `_handle_new_inquiry` sets it to PROCESSING before
the early return (the dispatcher treats PROCESSING like a new inquiry on
the next message).  The stored intent and activity time are updated; the
matched products, draft order and pending items are untouched. -/
theorem claim_C5 (env : Env) (ctx : Context) (msg : String)
    (hstate : ctx.state = ConvState.idle ∨
      ctx.state = ConvState.awaitingInquiry)
    (hintent : (env.parseResult msg).intent_type = IntentType.order_status) :
    MessageHandler.stepFn env ctx msg =
      ({ ctx with last_message_at := some env.now,
                  state := ConvState.processing,
                  parsed_intent := some (env.parseResult msg) },
        some (Action.sendText MessageHandler.orderStatusPrompt)) := by
  have hne : ¬ ((env.parseResult msg).intent_type = IntentType.unclear) := by
    rw [hintent]
    intro hcon
    cases hcon
  have hbody : MessageHandler.handleNewInquiry env
      { ctx with last_message_at := some env.now } msg =
      ({ ctx with last_message_at := some env.now,
                  state := ConvState.processing,
                  parsed_intent := some (env.parseResult msg) },
        some (Action.sendText MessageHandler.orderStatusPrompt)) := by
    unfold MessageHandler.handleNewInquiry
    dsimp only
    rw [if_neg hne, if_pos hintent]
  rcases hstate with h | h <;>
  · unfold MessageHandler.stepFn
    dsimp only
    rw [h]
    exact hbody

/-- Witness for C5 at a fresh idle session with the fallback parser. -/
theorem claim_C5_witness :
    MessageHandler.stepFn sampleEnv idleCtx "status" =
      ({ idleCtx with last_message_at := some sampleEnv.now,
                      state := ConvState.processing,
                      parsed_intent :=
                        some (sampleEnv.parseResult "status") },
        some (Action.sendText MessageHandler.orderStatusPrompt)) :=
  claim_C5 sampleEnv idleCtx "status" (Or.inl rfl) (by decide)

/-- Counterexample for C5 as stated: from IDLE, a message with intent
`order_status` leaves the session in PROCESSING, not in its original
state. -/
theorem claim_C5_counterexample :
    (sampleEnv.parseResult "status").intent_type =
      IntentType.order_status ∧
    ((MessageHandler.stepFn sampleEnv idleCtx "status").1).state =
      ConvState.processing ∧
    ConvState.processing ≠ ConvState.idle := by
  refine ⟨by decide, ?_, by decide⟩
  decide

/-- **C6.** In AWAITING_CONFIRMATION, a confirm synonym moves the session
to AWAITING_DELIVERY_INFO with the delivery-request prompt when the draft
order lacks delivery info, and to ORDER_CONFIRMED with the final
confirmation carrying the order id otherwise; and along every reachable
path a session is never in ORDER_CONFIRMED without delivery info present
on its draft order. -/
theorem claim_C6 :
    (∀ (env : Env) (ctx : Context) (msg : String) (o : ExtractedOrder),
      ctx.state = ConvState.awaitingConfirmation →
      (["confirm_order", "yes", "confirm", "proceed"].contains
        (pyStrip (pyLower msg))) = true →
      ctx.extracted_order = some o →
      (o.delivery = none →
        MessageHandler.stepFn env ctx msg =
          ({ ctx with last_message_at := some env.now,
                      state := ConvState.awaitingDeliveryInfo },
            some (Action.sendText MessageHandler.deliveryRequestPrompt))) ∧
      (∀ d, o.delivery = some d →
        MessageHandler.stepFn env ctx msg =
          ({ ctx with last_message_at := some env.now,
                      state := ConvState.orderConfirmed },
            some (Action.orderConfirmedAct o.order_id o
              (MessageHandler.confirmedMessage o.order_id))))) ∧
    (∀ ctx : Context, MessageHandler.Reachable ctx →
      ctx.state = ConvState.orderConfirmed →
      ∃ o, ctx.extracted_order = some o ∧ o.delivery.isSome = true) := by
  constructor
  · intro env ctx msg o hstate hsyn hord
    have hstep : MessageHandler.stepFn env ctx msg =
        MessageHandler.handleConfirmation
          { ctx with last_message_at := some env.now } msg := by
      unfold MessageHandler.stepFn
      dsimp only
      rw [hstate]
    constructor
    · intro hdel
      rw [hstep]
      unfold MessageHandler.handleConfirmation
      dsimp only
      rw [if_pos hsyn]
      have hord' : ({ ctx with last_message_at := some env.now } :
          Context).extracted_order = some o := hord
      rw [hord']
      dsimp only
      rw [if_pos (show o.delivery.isNone = true by simp [hdel])]
    · intro d hdel
      rw [hstep]
      unfold MessageHandler.handleConfirmation
      dsimp only
      rw [if_pos hsyn]
      have hord' : ({ ctx with last_message_at := some env.now } :
          Context).extracted_order = some o := hord
      rw [hord']
      dsimp only
      rw [if_neg (show ¬ o.delivery.isNone = true by simp [hdel])]
  · intro ctx hreach
    induction hreach with
    | init p t =>
      intro hcon
      simp [MessageHandler.initContext] at hcon
    | step env msg c hr ih =>
      intro hstate
      cases hcs : c.state with
      | idle =>
        refine absurd hstate ?_
        unfold MessageHandler.stepFn
        dsimp only
        rw [hcs]
        dsimp only
        exact newInquiry_state_ne env _ msg
      | awaitingInquiry =>
        refine absurd hstate ?_
        unfold MessageHandler.stepFn
        dsimp only
        rw [hcs]
        dsimp only
        exact newInquiry_state_ne env _ msg
      | processing =>
        refine absurd hstate ?_
        unfold MessageHandler.stepFn
        dsimp only
        rw [hcs]
        dsimp only
        exact newInquiry_state_ne env _ msg
      | orderConfirmed =>
        refine absurd hstate ?_
        unfold MessageHandler.stepFn
        dsimp only
        rw [hcs]
        dsimp only
        exact newInquiry_state_ne env _ msg
      | completed =>
        refine absurd hstate ?_
        unfold MessageHandler.stepFn
        dsimp only
        rw [hcs]
        dsimp only
        exact newInquiry_state_ne env _ msg
      | awaitingProductSelection =>
        refine absurd hstate ?_
        unfold MessageHandler.stepFn
        dsimp only
        rw [hcs]
        dsimp only
        exact productSelection_state_ne env _ msg (by simp [hcs])
      | awaitingQuantity =>
        refine absurd hstate ?_
        unfold MessageHandler.stepFn
        dsimp only
        rw [hcs]
        dsimp only
        exact quantityInput_state_ne _ msg (by simp [hcs])
      | awaitingDeliveryInfo =>
        refine absurd hstate ?_
        unfold MessageHandler.stepFn
        dsimp only
        rw [hcs]
        dsimp only
        rw [deliveryInfo_state _ msg]
        simp
      | awaitingConfirmation =>
        have hstep : MessageHandler.stepFn env c msg =
            MessageHandler.handleConfirmation
              { c with last_message_at := some env.now } msg := by
          unfold MessageHandler.stepFn
          dsimp only
          rw [hcs]
        rw [hstep] at hstate ⊢
        rcases confirmation_state _ msg hstate with heq | hex
        · exact absurd (heq.symm.trans hstate).symm (by simp [hcs])
        · exact hex

/-- Witness for C6 at a concrete confirming session whose draft order has
delivery info. -/
theorem claim_C6_witness :
    MessageHandler.stepFn sampleEnv confirmCtx "yes" =
      ({ confirmCtx with last_message_at := some sampleEnv.now,
                         state := ConvState.orderConfirmed },
        some (Action.orderConfirmedAct sampleOrder.order_id sampleOrder
          (MessageHandler.confirmedMessage sampleOrder.order_id))) :=
  (claim_C6.1 sampleEnv confirmCtx "yes" sampleOrder rfl (by decide)
    rfl).2 sampleDelivery rfl

end UnidBox
